import Mathlib

/-!
Verification of the `dolphindes` repository slice: the package export module
`dolphindes/cvxopt/__init__.py` and the type-alias module `dolphindes/types.py`.

The embedding models Python type expressions (`PyType`), runtime values
(`PyValue`), and the module-level statements of the two files (`Stmt`),
together with a small evaluation semantics: evaluating a module in an
environment of available modules either binds a list of names or raises
an import error.
-/

namespace Dolphindes

/-- The numpy dtype kinds appearing in `types.py`: `np.complexfloating`
and `np.bool_`. -/
inductive Dtype where
  | complexfloating
  | bool_
deriving DecidableEq

/-- Python type expressions used on the right-hand sides of the aliases in
`types.py`: `NDArray[d]` (a dense N-dimensional array of dtype `d`),
`sp.sparray` (a scipy sparse array), and `Union[a, b]`. -/
inductive PyType where
  | ndarray (d : Dtype)
  | sparray
  | union (a b : PyType)
deriving DecidableEq

/-- `ComplexArray: TypeAlias = NDArray[np.complexfloating]` (types.py line 9). -/
def ComplexArray : PyType := PyType.ndarray Dtype.complexfloating

/-- `ComplexGrid: TypeAlias = NDArray[np.complexfloating]` (types.py line 10). -/
def ComplexGrid : PyType := PyType.ndarray Dtype.complexfloating

/-- `BoolGrid: TypeAlias = NDArray[np.bool_]` (types.py line 11). -/
def BoolGrid : PyType := PyType.ndarray Dtype.bool_

/-- `SparseDense: TypeAlias = Union[ComplexGrid, sp.sparray]` (types.py line 12). -/
def SparseDense : PyType := PyType.union ComplexGrid PyType.sparray

/-- Runtime values classified by the shapes the aliases talk about:
a dense array of some dtype, a scipy sparse array, or anything else. -/
inductive PyValue where
  | denseArray (d : Dtype)
  | sparseArray
  | other
deriving DecidableEq

/-- Membership of a runtime value in a type expression: a dense array
matches `NDArray[d]` of its dtype, a sparse array matches `sp.sparray`,
and a union matches when either side does. -/
def hasType : PyValue → PyType → Bool
  | PyValue.denseArray d, PyType.ndarray e => d == e
  | PyValue.sparseArray, PyType.sparray => true
  | v, PyType.union a b => hasType v a || hasType v b
  | _, _ => false

/-- A type expression denotes a dense array representation when it is an
`NDArray[...]`. -/
def isDense : PyType → Bool
  | PyType.ndarray _ => true
  | _ => false

/-- The element dtype of a dense array type, when it is one. -/
def elemDtype : PyType → Option Dtype
  | PyType.ndarray d => some d
  | _ => none

/-- Module-level Python statements occurring in (or expressible for) the two
source files: `from module import names` (with a flag marking a relative,
i.e. sibling, import), `import module as name`, a type-alias definition
`name: TypeAlias = t`, the `__all__ = [...]` assignment, plus the statement
kinds the spec asks us to check for absence of: `def`, `class`, `raise`,
`try`/`except`, and `assert`. -/
inductive Stmt where
  | fromImport (relative : Bool) (module : String) (names : List String)
  | importAs (module : String) (asName : String)
  | aliasDef (name : String) (t : PyType)
  | assignAll (names : List String)
  | defStmt (name : String)
  | classStmt (name : String)
  | raiseStmt
  | tryStmt
  | assertStmt
deriving DecidableEq

/-- The `__all__` list of `dolphindes/cvxopt/__init__.py`, lines 12-20,
in source order. -/
def dunder_all : List String :=
  ["SparseSharedProjQCQP",
   "DenseSharedProjQCQP",
   "BFGS",
   "Alt_Newton_GD",
   "merge_lead_constraints",
   "add_constraints",
   "run_gcd"]

/-- The statements of `dolphindes/cvxopt/__init__.py`:
`from .optimization import BFGS, Alt_Newton_GD`,
`from .qcqp import DenseSharedProjQCQP, SparseSharedProjQCQP,
add_constraints, merge_lead_constraints, run_gcd`, and the `__all__`
assignment. -/
def cvxopt_init_module : List Stmt :=
  [Stmt.fromImport true "optimization" ["BFGS", "Alt_Newton_GD"],
   Stmt.fromImport true "qcqp"
     ["DenseSharedProjQCQP", "SparseSharedProjQCQP", "add_constraints",
      "merge_lead_constraints", "run_gcd"],
   Stmt.assignAll dunder_all]

/-- The statements of `dolphindes/types.py`:
`from typing import TypeAlias, Union`, `import numpy as np`,
`import scipy.sparse as sp`, `from numpy.typing import NDArray`,
then the four alias definitions. -/
def types_module : List Stmt :=
  [Stmt.fromImport false "typing" ["TypeAlias", "Union"],
   Stmt.importAs "numpy" "np",
   Stmt.importAs "scipy.sparse" "sp",
   Stmt.fromImport false "numpy.typing" ["NDArray"],
   Stmt.aliasDef "ComplexArray" ComplexArray,
   Stmt.aliasDef "ComplexGrid" ComplexGrid,
   Stmt.aliasDef "BoolGrid" BoolGrid,
   Stmt.aliasDef "SparseDense" SparseDense]

/-- Modelled from the spec: the first, superseded version of `types.py`,
which is not present under src/ (src/ holds only the second version).
Per the spec it lacked `ComplexArray`, `SparseDense` and the sparse-array
dependency (`import scipy.sparse as sp` and the `Union` import), while
defining `ComplexGrid` and `BoolGrid` exactly as the second version does. -/
def types_module_v1 : List Stmt :=
  [Stmt.fromImport false "typing" ["TypeAlias"],
   Stmt.importAs "numpy" "np",
   Stmt.fromImport false "numpy.typing" ["NDArray"],
   Stmt.aliasDef "ComplexGrid" ComplexGrid,
   Stmt.aliasDef "BoolGrid" BoolGrid]

/-- An environment of importable modules: each entry is a module name with
the attribute names it provides. -/
def ModuleEnv : Type := List (String × List String)

/-- A module named `m` exists in the environment. -/
def hasModule (env : ModuleEnv) (m : String) : Bool :=
  env.any (fun p => p.1 == m)

/-- Module `m` exists in the environment and provides attribute `a`. -/
def provides (env : ModuleEnv) (m a : String) : Bool :=
  env.any (fun p => p.1 == m && p.2.contains a)

/-- Errors a module evaluation can raise: an `ImportError` (module missing
or attribute missing), or any other exception (from `raise`). -/
inductive PyErr where
  | importError
  | exception
deriving DecidableEq

/-- One step of module evaluation: given the environment and the names bound
so far, a statement either extends the bindings or raises.  A `from` import
requires the module to exist and provide every imported name; `import m as n`
requires the module to exist; alias definitions, `__all__`, `def` and `class`
just bind a name; `raise` raises; a `try` block and a (passing) `assert` bind
nothing. -/
def evalStmt (env : ModuleEnv) (bound : List String) :
    Stmt → Except PyErr (List String)
  | Stmt.fromImport _ m names =>
      if hasModule env m && names.all (fun n => provides env m n) then
        Except.ok (bound ++ names)
      else
        Except.error PyErr.importError
  | Stmt.importAs m n =>
      if hasModule env m then Except.ok (bound ++ [n])
      else Except.error PyErr.importError
  | Stmt.aliasDef n _ => Except.ok (bound ++ [n])
  | Stmt.assignAll _ => Except.ok (bound ++ ["__all__"])
  | Stmt.defStmt n => Except.ok (bound ++ [n])
  | Stmt.classStmt n => Except.ok (bound ++ [n])
  | Stmt.raiseStmt => Except.error PyErr.exception
  | Stmt.tryStmt => Except.ok bound
  | Stmt.assertStmt => Except.ok bound

/-- Evaluate a list of statements in order, threading the bound names and
stopping at the first error. -/
def evalStmts (env : ModuleEnv) (bound : List String) :
    List Stmt → Except PyErr (List String)
  | [] => Except.ok bound
  | s :: rest =>
      match evalStmt env bound s with
      | Except.error e => Except.error e
      | Except.ok b => evalStmts env b rest

/-- A statement is an error path when it raises, handles, or asserts. -/
def hasErrorPath : Stmt → Bool
  | Stmt.raiseStmt => true
  | Stmt.tryStmt => true
  | Stmt.assertStmt => true
  | _ => false

/-- A statement is purely declarative: an import, a type-alias definition,
or the `__all__` assignment — no control flow, no `def`, no `class`. -/
def isDeclarative : Stmt → Bool
  | Stmt.fromImport _ _ _ => true
  | Stmt.importAs _ _ => true
  | Stmt.aliasDef _ _ => true
  | Stmt.assignAll _ => true
  | _ => false

/-- Whether a statement's imports succeed in the environment (true for
non-import statements). -/
def stmtImportsOk (env : ModuleEnv) : Stmt → Bool
  | Stmt.fromImport _ m names =>
      hasModule env m && names.all (fun n => provides env m n)
  | Stmt.importAs m _ => hasModule env m
  | _ => true

/-- All import statements of a module succeed in the environment. -/
def importsOk (env : ModuleEnv) (stmts : List Stmt) : Bool :=
  stmts.all (stmtImportsOk env)

/-- The (module, name) pairs bound by the `from`-import statements of a
module, in order. -/
def importBindings : List Stmt → List (String × String)
  | [] => []
  | Stmt.fromImport _ m names :: rest =>
      names.map (fun n => (m, n)) ++ importBindings rest
  | _ :: rest => importBindings rest

/-- The (module, name) pairs bound by relative (sibling) `from`-imports. -/
def siblingImportBindings : List Stmt → List (String × String)
  | [] => []
  | Stmt.fromImport true m names :: rest =>
      names.map (fun n => (m, n)) ++ siblingImportBindings rest
  | _ :: rest => siblingImportBindings rest

/-- The (name, type) pairs bound by the alias definitions of a module. -/
def aliasBindings : List Stmt → List (String × PyType)
  | [] => []
  | Stmt.aliasDef n t :: rest => (n, t) :: aliasBindings rest
  | _ :: rest => aliasBindings rest

/-- Whether a module contains `import m as ...` for module `m`. -/
def importsModuleAs (stmts : List Stmt) (m : String) : Bool :=
  stmts.any (fun s =>
    match s with
    | Stmt.importAs m' _ => m' == m
    | _ => false)

/-- The environment consisting only of the modules present in the supplied
source files: `dolphindes.types` (and the `dolphindes.cvxopt` package itself);
neither sibling module `optimization` nor `qcqp` is present. -/
def supplied_env : ModuleEnv :=
  [("dolphindes.types",
    ["ComplexArray", "ComplexGrid", "BoolGrid", "SparseDense"])]

/-- An environment in which every module imported by either source file
exists and provides the imported attributes. -/
def full_env : ModuleEnv :=
  [("typing", ["TypeAlias", "Union"]),
   ("numpy", []),
   ("scipy.sparse", []),
   ("numpy.typing", ["NDArray"]),
   ("optimization", ["BFGS", "Alt_Newton_GD"]),
   ("qcqp", ["DenseSharedProjQCQP", "SparseSharedProjQCQP", "add_constraints",
             "merge_lead_constraints", "run_gcd"])]

theorem evalStmts_isOk_eq_importsOk (env : ModuleEnv) :
    ∀ (stmts : List Stmt) (b : List String),
      stmts.all (fun s => !hasErrorPath s) = true →
      (evalStmts env b stmts).isOk = importsOk env stmts
  | [], _, _ => rfl
  | s :: rest, b, h => by
      rw [List.all_cons, Bool.and_eq_true] at h
      obtain ⟨hs, hrest⟩ := h
      cases s with
      | fromImport rel m names =>
          by_cases hc : (hasModule env m
              && names.all (fun n => provides env m n)) = true
          · simp only [evalStmts, evalStmt, if_pos hc, importsOk,
              List.all_cons, stmtImportsOk, hc, Bool.true_and]
            exact evalStmts_isOk_eq_importsOk env rest _ hrest
          · simp only [evalStmts, evalStmt, if_neg hc, importsOk,
              List.all_cons, stmtImportsOk]
            simp [Bool.eq_false_iff.mpr hc, Except.isOk, Except.toBool]
      | importAs m n =>
          by_cases hc : hasModule env m = true
          · simp only [evalStmts, evalStmt, if_pos hc, importsOk,
              List.all_cons, stmtImportsOk, hc, Bool.true_and]
            exact evalStmts_isOk_eq_importsOk env rest _ hrest
          · simp only [evalStmts, evalStmt, if_neg hc, importsOk,
              List.all_cons, stmtImportsOk]
            simp [Bool.eq_false_iff.mpr hc, Except.isOk, Except.toBool]
      | aliasDef n t =>
          simp only [evalStmts, evalStmt, importsOk, List.all_cons,
            stmtImportsOk, Bool.true_and]
          exact evalStmts_isOk_eq_importsOk env rest _ hrest
      | assignAll names =>
          simp only [evalStmts, evalStmt, importsOk, List.all_cons,
            stmtImportsOk, Bool.true_and]
          exact evalStmts_isOk_eq_importsOk env rest _ hrest
      | defStmt n =>
          simp only [evalStmts, evalStmt, importsOk, List.all_cons,
            stmtImportsOk, Bool.true_and]
          exact evalStmts_isOk_eq_importsOk env rest _ hrest
      | classStmt n =>
          simp only [evalStmts, evalStmt, importsOk, List.all_cons,
            stmtImportsOk, Bool.true_and]
          exact evalStmts_isOk_eq_importsOk env rest _ hrest
      | raiseStmt => simp [hasErrorPath] at hs
      | tryStmt => simp [hasErrorPath] at hs
      | assertStmt => simp [hasErrorPath] at hs

/-- The names a module's statements bind, in order (imports bind the imported
or `as` names, aliases and `def`/`class` bind their name, `__all__` binds
itself). -/
def boundNames : List Stmt → List String
  | [] => []
  | Stmt.fromImport _ _ names :: rest => names ++ boundNames rest
  | Stmt.importAs _ n :: rest => n :: boundNames rest
  | Stmt.aliasDef n _ :: rest => n :: boundNames rest
  | Stmt.assignAll _ :: rest => "__all__" :: boundNames rest
  | Stmt.defStmt n :: rest => n :: boundNames rest
  | Stmt.classStmt n :: rest => n :: boundNames rest
  | Stmt.raiseStmt :: rest => boundNames rest
  | Stmt.tryStmt :: rest => boundNames rest
  | Stmt.assertStmt :: rest => boundNames rest

theorem evalStmts_ok_of_importsOk (env : ModuleEnv) :
    ∀ (stmts : List Stmt) (b : List String),
      stmts.all (fun s => !hasErrorPath s) = true →
      importsOk env stmts = true →
      evalStmts env b stmts = Except.ok (b ++ boundNames stmts)
  | [], b, _, _ => by simp [evalStmts, boundNames]
  | s :: rest, b, h, hok => by
      rw [List.all_cons, Bool.and_eq_true] at h
      obtain ⟨hs, hrest⟩ := h
      rw [importsOk, List.all_cons, Bool.and_eq_true] at hok
      obtain ⟨hok1, hok2⟩ := hok
      have ih := fun b' => evalStmts_ok_of_importsOk env rest b' hrest hok2
      cases s with
      | fromImport rel m names =>
          rw [stmtImportsOk] at hok1
          simp only [evalStmts, evalStmt, if_pos hok1, boundNames, ih,
            List.append_assoc]
      | importAs m n =>
          rw [stmtImportsOk] at hok1
          simp only [evalStmts, evalStmt, if_pos hok1, boundNames, ih,
            List.append_assoc, List.cons_append, List.nil_append]
      | aliasDef n t =>
          simp only [evalStmts, evalStmt, boundNames, ih,
            List.append_assoc, List.cons_append, List.nil_append]
      | assignAll names =>
          simp only [evalStmts, evalStmt, boundNames, ih,
            List.append_assoc, List.cons_append, List.nil_append]
      | defStmt n =>
          simp only [evalStmts, evalStmt, boundNames, ih,
            List.append_assoc, List.cons_append, List.nil_append]
      | classStmt n =>
          simp only [evalStmts, evalStmt, boundNames, ih,
            List.append_assoc, List.cons_append, List.nil_append]
      | raiseStmt => simp [hasErrorPath] at hs
      | tryStmt => simp [hasErrorPath] at hs
      | assertStmt => simp [hasErrorPath] at hs

/-- C1: the `__all__` of `dolphindes.cvxopt` consists of exactly the seven
names SparseSharedProjQCQP, DenseSharedProjQCQP, BFGS, Alt_Newton_GD,
merge_lead_constraints, add_constraints, and run_gcd — no more and no
fewer. -/
theorem dunder_all_exactly_seven :
    dunder_all.Nodup ∧ dunder_all.length = 7 ∧
    dunder_all.toFinset =
      ({"SparseSharedProjQCQP", "DenseSharedProjQCQP", "BFGS", "Alt_Newton_GD",
        "merge_lead_constraints", "add_constraints", "run_gcd"} :
        Finset String) := by
  refine ⟨by decide, rfl, by decide⟩

/-- C2: a value has type `SparseDense` if and only if it is either a dense
complex array (i.e. has type `ComplexGrid`) or a sparse array — `SparseDense`
is the tagged union of the two representations. -/
theorem sparseDense_union_iff (v : PyValue) :
    (hasType v SparseDense = true ↔
      (hasType v ComplexGrid = true ∨ hasType v PyType.sparray = true)) ∧
    (hasType v SparseDense = true ↔
      (v = PyValue.denseArray Dtype.complexfloating ∨
       v = PyValue.sparseArray)) := by
  cases v with
  | denseArray d => cases d <;> exact ⟨by decide, by decide⟩
  | sparseArray => exact ⟨by decide, by decide⟩
  | other => exact ⟨by decide, by decide⟩

/-- C2 witness: the dense complex array, the sparse array and a non-array
value, checked concretely. -/
theorem sparseDense_union_iff_witness :
    hasType (PyValue.denseArray Dtype.complexfloating) SparseDense = true ∧
    hasType PyValue.sparseArray SparseDense = true ∧
    hasType PyValue.other SparseDense = false :=
  ⟨(sparseDense_union_iff (PyValue.denseArray Dtype.complexfloating)).2.mpr
      (Or.inl rfl),
   (sparseDense_union_iff PyValue.sparseArray).2.mpr (Or.inr rfl),
   by decide⟩

/-- C3: the aliases `ComplexGrid` and `ComplexArray` denote the same type
(`NDArray[np.complexfloating]`), so a value has one type exactly when it has
the other. -/
theorem complexGrid_eq_complexArray :
    ComplexGrid = ComplexArray ∧
    ∀ v : PyValue, (hasType v ComplexGrid = true ↔ hasType v ComplexArray = true) :=
  ⟨rfl, fun _ => Iff.rfl⟩

/-- C4: the second version of `types.py` (the one under src/) supersedes the
first: every alias binding of the first version appears unchanged in the
second, the first defines exactly `ComplexGrid` and `BoolGrid`, the second
adds exactly `ComplexArray` and `SparseDense`, and only the second imports
`scipy.sparse`. -/
theorem types_v2_supersedes_v1 :
    (aliasBindings types_module_v1).toFinset ⊆
      (aliasBindings types_module).toFinset ∧
    (aliasBindings types_module_v1).map Prod.fst = ["ComplexGrid", "BoolGrid"] ∧
    ((aliasBindings types_module).map Prod.fst).toFinset =
      ((aliasBindings types_module_v1).map Prod.fst).toFinset ∪
        {"ComplexArray", "SparseDense"} ∧
    importsModuleAs types_module "scipy.sparse" = true ∧
    importsModuleAs types_module_v1 "scipy.sparse" = false := by
  refine ⟨by decide, rfl, by decide, rfl, rfl⟩

/-- C5: the sibling (relative) imports of the package export module bind
BFGS and Alt_Newton_GD from `optimization` and the five QCQP names from
`qcqp`, and every name in `__all__` is bound by one of these imports. -/
theorem exports_from_two_siblings :
    siblingImportBindings cvxopt_init_module =
      [("optimization", "BFGS"), ("optimization", "Alt_Newton_GD"),
       ("qcqp", "DenseSharedProjQCQP"), ("qcqp", "SparseSharedProjQCQP"),
       ("qcqp", "add_constraints"), ("qcqp", "merge_lead_constraints"),
       ("qcqp", "run_gcd")] ∧
    dunder_all.all (fun s =>
      (siblingImportBindings cvxopt_init_module).any (fun p => p.2 == s)) =
      true := by
  refine ⟨rfl, by decide⟩

/-- C6: `BoolGrid` is a dense N-dimensional array type with boolean
elements: a value has type `BoolGrid` exactly when it is a dense array of
dtype `np.bool_`. -/
theorem boolGrid_dense_bool (v : PyValue) :
    isDense BoolGrid = true ∧ elemDtype BoolGrid = some Dtype.bool_ ∧
    (hasType v BoolGrid = true ↔ v = PyValue.denseArray Dtype.bool_) := by
  refine ⟨rfl, rfl, ?_⟩
  cases v with
  | denseArray d => cases d <;> decide
  | sparseArray => decide
  | other => decide

/-- C7: neither module contains a `raise`, `try`/`except` or `assert`
statement, and — provided all its imports succeed — evaluating each module
never raises. -/
theorem modules_no_error_path :
    ((types_module ++ cvxopt_init_module).all (fun s => !hasErrorPath s)) =
      true ∧
    (∀ env : ModuleEnv, importsOk env types_module = true →
      (evalStmts env [] types_module).isOk = true) ∧
    (∀ env : ModuleEnv, importsOk env cvxopt_init_module = true →
      (evalStmts env [] cvxopt_init_module).isOk = true) := by
  refine ⟨by decide, ?_, ?_⟩
  · intro env h
    rw [evalStmts_isOk_eq_importsOk env types_module [] (by decide)]
    exact h
  · intro env h
    rw [evalStmts_isOk_eq_importsOk env cvxopt_init_module [] (by decide)]
    exact h

/-- C7 witness: in an environment providing every imported module and
attribute, both modules evaluate without error. -/
theorem modules_no_error_path_witness :
    importsOk full_env types_module = true ∧
    (evalStmts full_env [] types_module).isOk = true ∧
    importsOk full_env cvxopt_init_module = true ∧
    (evalStmts full_env [] cvxopt_init_module).isOk = true :=
  ⟨by decide, modules_no_error_path.2.1 full_env (by decide), by decide,
   modules_no_error_path.2.2 full_env (by decide)⟩

/-- C8: every statement of the type-alias module is declarative (an import,
an alias definition — no control flow, `def` or `class`), an alias
definition always succeeds and binds only its name whatever the annotated
type, and evaluating the module binds exactly the five imported names and
the four alias names. -/
theorem types_module_only_binds :
    types_module.all isDeclarative = true ∧
    (∀ (env : ModuleEnv) (b : List String) (n : String) (t : PyType),
      evalStmt env b (Stmt.aliasDef n t) = Except.ok (b ++ [n])) ∧
    (∀ env : ModuleEnv, importsOk env types_module = true →
      evalStmts env [] types_module =
        Except.ok ["TypeAlias", "Union", "np", "sp", "NDArray",
                   "ComplexArray", "ComplexGrid", "BoolGrid", "SparseDense"]) := by
  refine ⟨by decide, fun _ _ _ _ => rfl, ?_⟩
  intro env h
  rw [evalStmts_ok_of_importsOk env types_module [] (by decide) h]
  rfl

/-- C8 witness: in an environment providing every imported module, the
type-alias module evaluates to exactly the nine bindings. -/
theorem types_module_only_binds_witness :
    importsOk full_env types_module = true ∧
    evalStmts full_env [] types_module =
      Except.ok ["TypeAlias", "Union", "np", "sp", "NDArray",
                 "ComplexArray", "ComplexGrid", "BoolGrid", "SparseDense"] :=
  ⟨by decide, types_module_only_binds.2.2 full_env (by decide)⟩

/-- C9: in the package export module, the set of names in `__all__` equals
the set of names bound by its import statements, and `__all__` has no
duplicates. -/
theorem all_eq_imported_names :
    dunder_all.Nodup ∧
    dunder_all.toFinset =
      ((importBindings cvxopt_init_module).map Prod.snd).toFinset := by
  refine ⟨by decide, by decide⟩

/-- C10: importing `dolphindes.cvxopt` succeeds exactly when sibling modules
`optimization` and `qcqp` exist and provide the imported attributes; in the
environment holding only the supplied source files (no siblings), evaluating
the package raises an ImportError. -/
theorem cvxopt_import_succeeds_iff (env : ModuleEnv) :
    ((evalStmts env [] cvxopt_init_module).isOk = true ↔
      (hasModule env "optimization" = true ∧
       provides env "optimization" "BFGS" = true ∧
       provides env "optimization" "Alt_Newton_GD" = true ∧
       hasModule env "qcqp" = true ∧
       provides env "qcqp" "DenseSharedProjQCQP" = true ∧
       provides env "qcqp" "SparseSharedProjQCQP" = true ∧
       provides env "qcqp" "add_constraints" = true ∧
       provides env "qcqp" "merge_lead_constraints" = true ∧
       provides env "qcqp" "run_gcd" = true)) ∧
    evalStmts supplied_env [] cvxopt_init_module =
      Except.error PyErr.importError := by
  constructor
  · rw [evalStmts_isOk_eq_importsOk env cvxopt_init_module [] (by decide)]
    simp [importsOk, cvxopt_init_module, stmtImportsOk, List.all_cons,
      List.all_nil, Bool.and_eq_true, and_assoc]
  · rfl

end Dolphindes
